import Mathlib

/-!
Shallow embedding of the MongoDB change-stream trigger node
(nodes/MongoChangeTrigger/MongoChangeTrigger.node.ts) and proofs about it.

Conventions of the embedding:
* JavaScript values reaching the per-event path are modelled by `JsonVal`
  (strings, integer numbers, booleans, objects as association lists).
* Missing / `undefined` fields are `Option.none`; the optional-chaining
  operator `?.` is `Option.bind` / `Option.map`.
* The JS `||` default on a string is falsy-aware (the empty string falls
  back); on an object or a `Date` it is `Option.getD` (objects are truthy).
* Wall-clock times are milliseconds since the Unix epoch (`Nat`), and
  `Date.prototype.toISOString` is re-implemented as `toISOString` below.
-/

namespace MongoChangeTriggerModel

/-- A JavaScript / BSON value as it appears in a change-stream event.
Numbers are modelled as integers (the repository compares values only with
`===` against strings, so the numeric domain is irrelevant). -/
inductive JsonVal where
  | str (s : String)
  | num (n : Int)
  | jbool (b : Bool)
  | obj (fields : List (String × JsonVal))
deriving Repr

/-- JS `String(v)` / `v.toString()` for the values of `JsonVal`.
A plain object stringifies to "[object Object]". -/
def jsToString : JsonVal → String
  | .str s => s
  | .num n => toString n
  | .jbool b => if b then "true" else "false"
  | .obj _ => "[object Object]"

/-- JS strict equality `v === s` between an arbitrary value `v` and the
string `s` (filters carry string values): true only when `v` is a string
equal to `s`; a number, boolean or object is never `===` a string. -/
def jsStrictEqStr (v : JsonVal) (s : String) : Bool :=
  match v with
  | .str t => t == s
  | _ => false

/-- Own-property lookup in a JS object, `o.hasOwnProperty(k)` / `o[k]`. -/
def lookupField (m : List (String × JsonVal)) (k : String) : Option JsonVal :=
  match m with
  | [] => none
  | (k', v) :: rest => if k' == k then some v else lookupField rest k

/-- The `ns` field of a change event: `{db, coll}`. -/
structure EventNs where
  db : String
  coll : String
deriving Repr

/-- The `updateDescription` field of an update event. -/
structure UpdateDescription where
  updatedFields : List (String × JsonVal)
  removedFields : List String
deriving Repr

/-- A raw change-stream event (`ChangeStreamDocument`), restricted to the
fields the node reads.  `documentKey` is modelled as the `_id` value it
carries (`none` covers a missing `documentKey` as well as a missing `_id`,
the two cases the chain `documentKey?._id?` collapses).  `wallTime` is a
`Date`; a `Date` object is always truthy, so `wallTime || Date.now()`
is `Option.getD`.  `to` is the rename target namespace. -/
structure RawChangeEvent where
  operationType : String
  fullDocument : Option JsonVal := none
  ns : Option EventNs := none
  documentKey : Option JsonVal := none
  updateDescription : Option UpdateDescription := none
  wallTime : Option Nat := none
  toNs : Option EventNs := none
deriving Repr

/-- `(change as any).updateDescription?.updatedFields || \x7b\x7d`:
the changed-fields map of an update event, defaulting to the empty object. -/
def updatedFieldsOf (c : RawChangeEvent) : List (String × JsonVal) :=
  match c.updateDescription with
  | none => []
  | some ud => ud.updatedFields

/-- `(change as any).updateDescription?.removedFields || []`. -/
def removedFieldsOf (c : RawChangeEvent) : List String :=
  match c.updateDescription with
  | none => []
  | some ud => ud.removedFields

/-! ### `Date.prototype.toISOString`

Civil-calendar conversion (the standard era-based algorithm) plus the fixed
`YYYY-MM-DDTHH:mm:ss.sssZ` layout, for times at or after the epoch. -/

/-- Decimal rendering left-padded with zeros to `w` digits. -/
def padNum (w n : Nat) : String :=
  let s := toString n
  let l := s.length
  if l < w then String.mk (List.replicate (w - l) '0') ++ s else s

/-- Days since 1970-01-01 to a Gregorian (year, month, day) triple. -/
def civilFromDays (z : Nat) : Nat × Nat × Nat :=
  let z := z + 719468
  let era := z / 146097
  let doe := z % 146097
  let yoe := (doe - doe / 1460 + doe / 36524 - doe / 146096) / 365
  let y := yoe + era * 400
  let doy := doe - (365 * yoe + yoe / 4 - yoe / 100)
  let mp := (5 * doy + 2) / 153
  let d := doy - (153 * mp + 2) / 5 + 1
  let m := if mp < 10 then mp + 3 else mp - 9
  (if m ≤ 2 then y + 1 else y, m, d)

/-- `new Date(ms).toISOString()` for `ms` milliseconds since the epoch. -/
def toISOString (ms : Nat) : String :=
  let msPart := ms % 1000
  let totalSecs := ms / 1000
  let s := totalSecs % 60
  let totalMin := totalSecs / 60
  let mi := totalMin % 60
  let totalHours := totalMin / 60
  let h := totalHours % 24
  let days := totalHours / 24
  let ymd := civilFromDays days
  padNum 4 ymd.1 ++ "-" ++ padNum 2 ymd.2.1 ++ "-" ++ padNum 2 ymd.2.2 ++
    "T" ++ padNum 2 h ++ ":" ++ padNum 2 mi ++ ":" ++ padNum 2 s ++
    "." ++ padNum 3 msPart ++ "Z"

/-! ### EventNormalizer: `formatChangeOutput` -/

/-- JS `maybe || fallback` on a string field reached through `?.`:
`undefined` and the empty string (falsy) both yield the fallback. -/
def jsOrStr (o : Option String) (fallback : String) : String :=
  match o with
  | none => fallback
  | some s => if s == "" then fallback else s

/-- The normalized output record.  The base fields are always assigned by
the source; the remaining fields model the keys conditionally added by the
`switch` on the operation type (`none` = key not added). -/
structure NormalizedOutput where
  operation : String
  timestamp : String
  database : String
  collection : String
  documentId : Option String
  document : Option JsonVal := none
  modifiedFields : Option (List (String × JsonVal)) := none
  removedFields : Option (List String) := none
  documentAfterUpdate : Option JsonVal := none
  documentAfterReplace : Option JsonVal := none
  newCollection : Option String := none
  details : Option RawChangeEvent := none
deriving Repr

/-- Direct translation of the helper `formatChangeOutput(change)`.
`now` is `Date.now()`; `database` and `collectionName` are the node
parameters captured by the closure. -/
def formatChangeOutput (change : RawChangeEvent) (now : Nat)
    (database collectionName : String) : NormalizedOutput :=
  let base : NormalizedOutput := {
    operation := change.operationType
    timestamp := toISOString ((change.wallTime).getD now)
    database := jsOrStr (change.ns.map EventNs.db) database
    collection := jsOrStr (change.ns.map EventNs.coll) collectionName
    documentId := change.documentKey.map jsToString
  }
  match change.operationType with
  | "insert" => { base with document := some (change.fullDocument.getD (JsonVal.obj [])) }
  | "update" => { base with
      modifiedFields := some (updatedFieldsOf change)
      removedFields := some (removedFieldsOf change)
      documentAfterUpdate := change.fullDocument }
  | "replace" => { base with documentAfterReplace := some (change.fullDocument.getD (JsonVal.obj [])) }
  | "delete" => base
  | "drop" => base
  | "rename" => { base with newCollection := change.toNs.map EventNs.coll }
  | _ => { base with details := some change }

/-! ### ClientFilterEngine and the change handler -/

/-- One user filter row: `{field, operator, value}`.  The operator is kept
as the raw string the node receives (`"equal"` / `"notEqual"` from the UI,
but the `switch` also has a `default`). -/
structure FilterCondition where
  field : String
  operator : String
  value : String
deriving Repr, DecidableEq

/-- The body of `filters.every(filter => ...)`: absence of the field in
`updatedFields` fails the condition; otherwise `equal` is `===`, `notEqual`
is `!==`, and any other operator returns false. -/
def conditionMet (updatedFields : List (String × JsonVal))
    (filter : FilterCondition) : Bool :=
  match lookupField updatedFields filter.field with
  | none => false
  | some actualValue =>
    match filter.operator with
    | "equal" => jsStrictEqStr actualValue filter.value
    | "notEqual" => !jsStrictEqStr actualValue filter.value
    | _ => false

/-- The change-event handler: formats the event, and for update events with
a non-empty filter list emits only when `filters.every(...)` holds;
otherwise emits unconditionally.  `some out` models one emission of `out`,
`none` models no emission. -/
def onChange (filters : List FilterCondition) (change : RawChangeEvent)
    (now : Nat) (database collectionName : String) : Option NormalizedOutput :=
  let formattedOutput := formatChangeOutput change now database collectionName
  if filters.length > 0 && change.operationType == "update" then
    let updatedFields := updatedFieldsOf change
    let allConditionsMet := filters.all (fun filter => conditionMet updatedFields filter)
    if allConditionsMet then some formattedOutput else none
  else
    some formattedOutput

/-! ### PipelineBuilder -/

/-- The operation-type values offered by the node UI (the `multiOptions`
list has exactly these six entries, which is where the literal `6` in the
pipeline-construction check comes from). -/
def supportedOps : List String :=
  ["delete", "drop", "insert", "rename", "replace", "update"]

/-- A server-side `$match` stage as the node builds it: either the
operation-type restriction `\x7b operationType: \x7b $in: ops \x7d \x7d`, or the
monitored-fields stage (kept by its disjunct list; see `evalStage`). -/
inductive Stage where
  | opFilter (ops : List String)
  | fieldFilter (fields : List String)
deriving Repr, DecidableEq

def Stage.isFieldFilter : Stage → Bool
  | .fieldFilter _ => true
  | _ => false

def Stage.isOpFilter : Stage → Bool
  | .opFilter _ => true
  | _ => false

/-- JS `s.split(",")` on the character list: splits at every comma and
keeps empty segments (`"".split(",")` is `[""]`). -/
def splitCommaAux : List Char → List Char → List String
  | [], acc => [String.mk acc.reverse]
  | c :: rest, acc =>
    if c == ',' then String.mk acc.reverse :: splitCommaAux rest []
    else splitCommaAux rest (c :: acc)

/-- JS `s.split(",")`. -/
def splitComma (s : String) : List String :=
  splitCommaAux s.data []

/-- Whitespace for the purposes of JS `trim` (the ASCII cases). -/
def isWhitespaceChar (c : Char) : Bool :=
  c == ' ' || c == '\t' || c == '\n' || c == '\r'

/-- JS `s.trim()`: strip whitespace from both ends. -/
def jsTrim (s : String) : String :=
  String.mk (((s.data.dropWhile isWhitespaceChar).reverse.dropWhile
    isWhitespaceChar).reverse)

/-- `fields.split(",").map(field => field.trim())`. -/
def splitFields (fields : String) : List String :=
  (splitComma fields).map jsTrim

/-- The pipeline construction: push the `$in` stage when
`operationTypes.length > 0 && operationTypes.length < 6`, then push the
monitored-fields stage when `fields !== "*" && operationTypes.includes("update")`. -/
def buildPipeline (operationTypes : List String) (fields : String) : List Stage :=
  let p1 : List Stage :=
    if operationTypes.length > 0 && operationTypes.length < 6 then
      [Stage.opFilter operationTypes]
    else []
  let p2 : List Stage :=
    if fields != "*" && operationTypes.contains "update" then
      [Stage.fieldFilter (splitFields fields)]
    else []
  p1 ++ p2

/-- MongoDB `$match` semantics of a stage on a change event.
For `opFilter ops` this is `operationType ∈ ops` (`$in`).
For `fieldFilter fs` it is the literal disjunction the source builds:
`operationType ≠ "update"`, OR (`operationType = "update"` AND
`updateDescription.updatedFields` exists AND some monitored field exists
under `updateDescription.updatedFields`). -/
def evalStage : Stage → RawChangeEvent → Bool
  | .opFilter ops, c => ops.contains c.operationType
  | .fieldFilter fs, c =>
      (c.operationType != "update")
      || ((c.operationType == "update")
          && c.updateDescription.isSome
          && fs.any (fun f => (lookupField (updatedFieldsOf c) f).isSome))

/-! ### Startup: connection, validation, watch creation

The `trigger` method performs the external calls `client.connect()`,
`db.command(\x7b ping: 1 \x7d)` and `db.listCollections(...).toArray()`.  Their
outcomes are an input of the model (`MongoEnv`); the control flow around
them — including which `catch` block receives each thrown error — is the
translation of lines 146-266 of the source. -/

/-- An error thrown by a driver call: its `message`, its `codeName`
(empty string for `undefined`) and its `name`. -/
structure ExtErr where
  message : String
  codeName : String := ""
deriving Repr, DecidableEq

/-- JS `hay.includes(needle)`. -/
def jsIncludes (hay needle : String) : Bool :=
  hay.data.tails.any (fun t => needle.data.isPrefixOf t)

/-- `error.message?.includes("not authorized") || error.codeName === "Unauthorized"`. -/
def isAuthError (message codeName : String) : Bool :=
  jsIncludes message "not authorized" || codeName == "Unauthorized"

/-- Outcomes of the external driver calls made during startup. -/
structure MongoEnv where
  hasCredentials : Bool := true
  connectOk : Bool := true
  /-- `none` when the ping succeeds, `some e` when it throws `e`. -/
  pingErr : Option ExtErr := none
  /-- `.ok n`: `listCollections` resolves with `n` matching collections;
  `.error e`: the call throws `e`. -/
  listCollections : Except ExtErr Nat := .ok 1
deriving Repr

/-- The message of the `NodeApiError` built when the ping is denied. -/
def dbPermissionMessage (database : String) : String :=
  "Not authorized to access database \"" ++ database ++
    "\". Check if the database exists and your credentials have sufficient permissions."

/-- The message of the `NodeApiError` built when the ping fails otherwise. -/
def dbAccessMessage (database errMessage : String) : String :=
  "Database \"" ++ database ++ "\" could not be accessed: " ++ errMessage

/-- The message of the `NodeApiError` built for zero collection matches. -/
def notFoundMessage (collectionName database : String) : String :=
  "Collection \"" ++ collectionName ++ "\" does not exist in database \"" ++
    database ++ "\"."

/-- The message of the `NodeApiError` built when listing is denied. -/
def listPermissionMessage (database : String) : String :=
  "Not authorized to list collections in \"" ++ database ++
    "\". Check if your credentials have sufficient permissions."

/-- The message of the wrapping `NodeApiError` built in the `catch` of the
collection-existence check. -/
def verifyFailedMessage (collectionName : String) : String :=
  "Failed to verify if collection \"" ++ collectionName ++ "\" exists."

/-- The distinct `NodeApiError`s the startup path can surface, each carrying
the message string the source builds for it. -/
inductive TriggerError where
  | noCredentials
  | connectFailed
  | dbPermission (message : String)
  | dbAccess (message : String)
  | listPermission (message : String)
  | collectionNotFound (message : String)
  | verifyFailed (message : String)
deriving Repr, DecidableEq

/-- Whether an error is the zero-match (collection absent) one. -/
def TriggerError.isCollectionNotFound : TriggerError → Bool
  | .collectionNotFound _ => true
  | _ => false

/-- The collection-existence check (lines 199-216).  The body of the inner
`try` either resolves, or throws: a driver error, or the `NodeApiError`
built for zero matches.  Crucially, a throw from the body lands in the
`catch` of the SAME `try`, so the zero-match `NodeApiError` is itself
re-examined there: its message does not contain "not authorized" and it has
no `codeName`, so the `catch` re-wraps it in the `verifyFailed` error. -/
def collectionCheck (env : MongoEnv) (database collectionName : String) :
    Option TriggerError :=
  let thrown : Option ExtErr :=
    match env.listCollections with
    | .error e => some e
    | .ok n => if n == 0 then some { message := notFoundMessage collectionName database } else none
  match thrown with
  | none => none
  | some e =>
    if isAuthError e.message e.codeName then
      some (.listPermission (listPermissionMessage database))
    else
      some (.verifyFailed (verifyFailedMessage collectionName))

/-- The database ping check (lines 182-196). -/
def pingCheck (env : MongoEnv) (database : String) : Option TriggerError :=
  match env.pingErr with
  | none => none
  | some e =>
    if isAuthError e.message e.codeName then
      some (.dbPermission (dbPermissionMessage database))
    else
      some (.dbAccess (dbAccessMessage database e.message))

/-- The validation block (lines 180-224).  The outer `catch` rethrows any
error whose `name` is `NodeApiError` unchanged; every error produced inside
is a `NodeApiError`, so the outer `catch` is a pass-through. -/
def validateTarget (env : MongoEnv) (database collectionName : String) :
    Option TriggerError :=
  match pingCheck env database with
  | some e => some e
  | none => collectionCheck env database collectionName

/-- The startup path of `trigger`: credentials check, connect, validation,
then `collection.watch(pipeline)`.  `.ok pipeline` models the created
Subscription (the change stream registered with that pipeline); `.error e`
models a throw before any subscription exists. -/
def triggerStartup (env : MongoEnv) (database collectionName fields : String)
    (operationTypes : List String) : Except TriggerError (List Stage) :=
  if !env.hasCredentials then .error .noCredentials
  else if !env.connectOk then .error .connectFailed
  else
    match validateTarget env database collectionName with
    | some e => .error e
    | none => .ok (buildPipeline operationTypes fields)

/-! ### Teardown: `closeFunction` -/

/-- The two driver close calls, in the order `closeFunction` awaits them. -/
inductive CloseAction where
  | closeStream
  | closeConn
deriving Repr, DecidableEq, BEq

inductive CloseErr where
  | streamErr
  | connErr
deriving Repr, DecidableEq

/-- Whether each driver `close()` rejects on this invocation (the mongodb
driver resolves `close()` on an already-closed handle, so a repeated
invocation corresponds to an environment with both flags false). -/
structure CloseEnv where
  streamCloseFails : Bool
  connCloseFails : Bool
deriving Repr, DecidableEq

/-- `await changeStream.close(); await client.close();` — the trace of close
calls attempted and the error the async function rejects with, if any.
There is no try/finally: a rejection of the first await propagates
immediately and the second close is never attempted. -/
def closeFunction (env : CloseEnv) : List CloseAction × Option CloseErr :=
  if env.streamCloseFails then ([.closeStream], some .streamErr)
  else if env.connCloseFails then ([.closeStream, .closeConn], some .connErr)
  else ([.closeStream, .closeConn], none)

/-! ### Concrete events used by witnesses and counterexamples -/

/-- An update event whose `status` field changed to "done". -/
def evUpdDone : RawChangeEvent :=
  { operationType := "update"
    ns := some ⟨"d", "c"⟩
    documentKey := some (JsonVal.str "1")
    updateDescription := some { updatedFields := [("status", JsonVal.str "done")], removedFields := [] } }

/-- The insert event of the specification scenario. -/
def evIns : RawChangeEvent :=
  { operationType := "insert"
    fullDocument := some (JsonVal.obj [("_id", JsonVal.str "1"), ("status", JsonVal.str "new")])
    ns := some ⟨"d", "c"⟩
    documentKey := some (JsonVal.str "1") }

/-- An event with an operation tag outside the six handled cases. -/
def evInvalidate : RawChangeEvent := { operationType := "invalidate" }

/-- An event whose namespace is present but carries an empty database name. -/
def evEmptyNsDb : RawChangeEvent :=
  { operationType := "insert", ns := some ⟨"", "c"⟩ }

/-- A startup environment where every driver call succeeds and the
collection-existence query returns one match. -/
def benignEnv : MongoEnv := {}

/-- A startup environment where connect and ping succeed but the
collection-existence query resolves with zero matches. -/
def zeroMatchEnv : MongoEnv := { listCollections := .ok 0 }

/-! ### Claims about the client filter engine -/

/-- Claim C1: for every update event and every filter list, the handler
emits the event iff every filter condition is satisfied (logical AND, an
empty list passes trivially); a condition on a field absent from the
changed-fields map is false regardless of operator; for a present field,
"equal" demands JS strict equality of the changed value with the condition
string and "notEqual" its negation; non-update events bypass the filters
and are always emitted. -/
theorem clientFilterEngine_spec :
    ∀ (filters : List FilterCondition) (c : RawChangeEvent) (now : Nat)
      (db coll : String) (m : List (String × JsonVal)),
    (c.operationType = "update" →
      (onChange filters c now db coll).isSome
        = filters.all (fun f => conditionMet (updatedFieldsOf c) f))
    ∧ (c.operationType ≠ "update" →
        onChange filters c now db coll = some (formatChangeOutput c now db coll))
    ∧ (onChange [] c now db coll = some (formatChangeOutput c now db coll))
    ∧ (∀ f : FilterCondition, lookupField m f.field = none → conditionMet m f = false)
    ∧ (∀ (f : FilterCondition) (v : JsonVal), lookupField m f.field = some v →
        f.operator = "equal" → conditionMet m f = jsStrictEqStr v f.value)
    ∧ (∀ (f : FilterCondition) (v : JsonVal), lookupField m f.field = some v →
        f.operator = "notEqual" → conditionMet m f = !jsStrictEqStr v f.value) := by
  intro filters c now db coll m
  refine ⟨?_, ?_, ?_, ?_, ?_, ?_⟩
  · intro h
    cases filters with
    | nil => simp [onChange]
    | cons f fs =>
      cases hall : (f :: fs).all (fun g => conditionMet (updatedFieldsOf c) g) <;>
        simp [onChange, h, hall]
  · intro h
    have hb : (c.operationType == "update") = false := by
      simpa using h
    simp [onChange, hb]
  · simp [onChange]
  · intro f hf
    simp [conditionMet, hf]
  · intro f v hv hop
    simp [conditionMet, hv, hop]
  · intro f v hv hop
    simp [conditionMet, hv, hop]

/-- Witness for C1 at concrete inputs: the update event with status "done"
passes its matching filter, and an insert event is emitted unfiltered. -/
theorem clientFilterEngine_spec_witness :
    ((onChange [⟨"status", "equal", "done"⟩] evUpdDone 0 "d" "c").isSome = true)
    ∧ (onChange [⟨"status", "equal", "done"⟩] evIns 0 "d" "c"
        = some (formatChangeOutput evIns 0 "d" "c")) := by
  constructor
  · have h := (clientFilterEngine_spec [⟨"status", "equal", "done"⟩] evUpdDone 0 "d" "c" []).1 rfl
    rw [h]; decide
  · exact (clientFilterEngine_spec [⟨"status", "equal", "done"⟩] evIns 0 "d" "c" []).2.1 (by decide)

/-- Claim C10: for an update event with a non-empty filter list, a condition
whose operator is neither "equal" nor "notEqual" evaluates to false, so the
event is not emitted (no error is raised and the condition is not skipped). -/
theorem unknownOperator_spec :
    ∀ (filters : List FilterCondition) (c : RawChangeEvent) (now : Nat)
      (db coll : String) (f : FilterCondition),
    c.operationType = "update" → f ∈ filters →
    f.operator ≠ "equal" → f.operator ≠ "notEqual" →
    conditionMet (updatedFieldsOf c) f = false
    ∧ onChange filters c now db coll = none := by
  intro filters c now db coll f hop hmem h1 h2
  have hcm : conditionMet (updatedFieldsOf c) f = false := by
    unfold conditionMet
    cases hl : lookupField (updatedFieldsOf c) f.field with
    | none => rfl
    | some v =>
      dsimp only
      split
      next heq => exact absurd heq h1
      next heq => exact absurd heq h2
      next => rfl
  refine ⟨hcm, ?_⟩
  have hall : filters.all (fun g => conditionMet (updatedFieldsOf c) g) = false := by
    rw [List.all_eq_false]
    exact ⟨f, hmem, by simp [hcm]⟩
  have hlen : filters.length > 0 := List.length_pos.mpr (List.ne_nil_of_mem hmem)
  simp [onChange, hop, hlen, hall]

/-- Witness for C10: a filter row with operator "regex" suppresses emission
of an update event even though its field did change. -/
theorem unknownOperator_spec_witness :
    conditionMet (updatedFieldsOf evUpdDone) ⟨"status", "regex", "x"⟩ = false
    ∧ onChange [⟨"status", "regex", "x"⟩] evUpdDone 0 "d" "c" = none :=
  unknownOperator_spec [⟨"status", "regex", "x"⟩] evUpdDone 0 "d" "c"
    ⟨"status", "regex", "x"⟩ rfl (by decide) (by decide) (by decide)

/-! ### Claims about the pipeline builder -/

/-- The two Bool guards of `buildPipeline`, restated as propositions. -/
theorem buildPipeline_eq (ops : List String) (fields : String) :
    buildPipeline ops fields =
      (if 0 < ops.length ∧ ops.length < 6 then [Stage.opFilter ops] else [])
      ++ (if fields ≠ "*" ∧ "update" ∈ ops
          then [Stage.fieldFilter (splitFields fields)] else []) := by
  unfold buildPipeline
  split_ifs <;> simp_all [List.elem_iff]

/-- Membership of a monitored-fields stage in the built pipeline. -/
theorem fieldFilter_mem_iff (ops : List String) (fields : String) (fs : List String) :
    Stage.fieldFilter fs ∈ buildPipeline ops fields ↔
      (fields ≠ "*" ∧ "update" ∈ ops ∧ fs = splitFields fields) := by
  rw [buildPipeline_eq, List.mem_append]
  constructor
  · rintro (h | h)
    · split at h <;> simp at h
    · split at h
      next hcond =>
        simp only [List.mem_singleton, Stage.fieldFilter.injEq] at h
        exact ⟨hcond.1, hcond.2, h⟩
      next => simp at h
  · rintro ⟨h1, h2, rfl⟩
    refine Or.inr ?_
    rw [if_pos ⟨h1, h2⟩]
    simp

/-- Membership of an operation-type stage in the built pipeline. -/
theorem opFilter_mem_iff (ops : List String) (fields : String) (os : List String) :
    Stage.opFilter os ∈ buildPipeline ops fields ↔
      ((0 < ops.length ∧ ops.length < 6) ∧ os = ops) := by
  rw [buildPipeline_eq, List.mem_append]
  constructor
  · rintro (h | h)
    · split at h
      next hcond =>
        simp only [List.mem_singleton, Stage.opFilter.injEq] at h
        exact ⟨hcond, h⟩
      next => simp at h
    · split at h <;> simp at h
  · rintro ⟨h1, rfl⟩
    refine Or.inl ?_
    rw [if_pos h1]
    simp

/-- Claim C2: the builder appends a monitored-fields stage iff the field
list is not the wildcard and "update" is among the selected operation
types; that stage carries exactly the comma-split, trimmed field names, is
never produced for the wildcard, and evaluates as a disjunction that passes
every non-update event and passes an update event iff at least one
monitored field occurs among its changed fields. -/
theorem fieldStage_spec :
    ∀ (ops : List String) (fields : String),
    ((∃ fs, Stage.fieldFilter fs ∈ buildPipeline ops fields) ↔
        (fields ≠ "*" ∧ "update" ∈ ops))
    ∧ (fields = "*" → ∀ fs, Stage.fieldFilter fs ∉ buildPipeline ops fields)
    ∧ (∀ fs, Stage.fieldFilter fs ∈ buildPipeline ops fields → fs = splitFields fields)
    ∧ (∀ (fs : List String) (c : RawChangeEvent), c.operationType ≠ "update" →
        evalStage (Stage.fieldFilter fs) c = true)
    ∧ (∀ (fs : List String) (c : RawChangeEvent), c.operationType = "update" →
        (evalStage (Stage.fieldFilter fs) c = true ↔
          ∃ f ∈ fs, (lookupField (updatedFieldsOf c) f).isSome = true)) := by
  intro ops fields
  refine ⟨?_, ?_, ?_, ?_, ?_⟩
  · constructor
    · rintro ⟨fs, hfs⟩
      have h := (fieldFilter_mem_iff ops fields fs).mp hfs
      exact ⟨h.1, h.2.1⟩
    · intro hB
      exact ⟨splitFields fields, (fieldFilter_mem_iff ops fields _).mpr ⟨hB.1, hB.2, rfl⟩⟩
  · intro hstar fs hmem
    exact absurd hstar ((fieldFilter_mem_iff ops fields fs).mp hmem).1.elim
  · intro fs hmem
    exact ((fieldFilter_mem_iff ops fields fs).mp hmem).2.2
  · intro fs c h
    simp [evalStage, h]
  · intro fs c h
    cases hud : c.updateDescription with
    | none => simp [evalStage, h, updatedFieldsOf, hud, lookupField]
    | some ud => simp [evalStage, h, updatedFieldsOf, hud, List.any_eq_true]

/-- Witness for C2 at concrete inputs: with operation types `["update"]` and
the field list "status,priority" a monitored-fields stage is produced; it
passes the insert event outright, and passes the update event iff one of
the two fields changed. -/
theorem fieldStage_spec_witness :
    Stage.fieldFilter ["status", "priority"] ∈ buildPipeline ["update"] "status,priority"
    ∧ evalStage (Stage.fieldFilter ["status", "priority"]) evIns = true
    ∧ evalStage (Stage.fieldFilter ["status", "priority"]) evUpdDone = true := by
  have h := fieldStage_spec ["update"] "status,priority"
  refine ⟨?_, h.2.2.2.1 ["status", "priority"] evIns (by decide), ?_⟩
  · obtain ⟨fs, hfs⟩ := h.1.mpr ⟨by decide, by decide⟩
    have hsplit := h.2.2.1 fs hfs
    have he : splitFields "status,priority" = ["status", "priority"] := by decide
    rw [hsplit, he] at hfs
    exact hfs
  · exact (h.2.2.2.2 ["status", "priority"] evUpdDone rfl).mpr
      ⟨"status", by decide, by decide⟩

/-- Claim C3: for a duplicate-free, non-empty, strict subset of the six
supported operation types the builder emits a stage restricting events to
exactly that set ($in semantics); when all six types are selected, no
operation-type stage is produced. -/
theorem opStage_spec :
    ∀ (ops : List String) (fields : String),
    (ops.Nodup → ops ⊆ supportedOps → ops ≠ [] → ¬ supportedOps ⊆ ops →
      Stage.opFilter ops ∈ buildPipeline ops fields
      ∧ ∀ c : RawChangeEvent,
          (evalStage (Stage.opFilter ops) c = true ↔ c.operationType ∈ ops))
    ∧ (ops.Nodup → (∀ t, t ∈ ops ↔ t ∈ supportedOps) →
        ∀ os, Stage.opFilter os ∉ buildPipeline ops fields) := by
  intro ops fields
  constructor
  · intro hnd hsub hne hnsup
    have hsp : List.Subperm ops supportedOps := List.subperm_of_subset hnd hsub
    have hle : ops.length ≤ 6 := by simpa [supportedOps] using hsp.length_le
    have hlt : ops.length < 6 := by
      rcases lt_or_eq_of_le hle with h | h
      · exact h
      · exfalso
        have hperm : List.Perm ops supportedOps :=
          hsp.perm_of_length_le (by simp [supportedOps, h])
        exact hnsup hperm.symm.subset
    have hpos : 0 < ops.length := List.length_pos.mpr hne
    refine ⟨(opFilter_mem_iff ops fields ops).mpr ⟨⟨hpos, hlt⟩, rfl⟩, ?_⟩
    intro c
    simp [evalStage, List.elem_iff]
  · intro hnd hext os hmem
    have hperm : List.Perm ops supportedOps :=
      (List.perm_ext_iff_of_nodup hnd (by decide)).mpr hext
    have hlen : ops.length = 6 := by simpa [supportedOps] using hperm.length_eq
    have h := (opFilter_mem_iff ops fields os).mp hmem
    exact absurd h.1.2 (by omega)

/-- Witness for C3: the singleton selection `["update"]` is a strict subset,
so the $in stage appears and evaluates to membership on a concrete event. -/
theorem opStage_spec_witness :
    Stage.opFilter ["update"] ∈ buildPipeline ["update"] "*"
    ∧ (evalStage (Stage.opFilter ["update"]) evUpdDone = true ↔
        evUpdDone.operationType ∈ ["update"]) := by
  have h := (opStage_spec ["update"] "*").1 (by decide)
    (by intro a ha; simp at ha; subst ha; decide) (by decide)
    (by intro hsub; exact absurd (hsub (show "delete" ∈ supportedOps by decide)) (by decide))
  exact ⟨h.1, h.2 evUpdDone⟩

/-! ### Claims about the event normalizer -/

/-- The base fields of the normalized output are assigned before the
`switch` and are untouched by every branch of it. -/
theorem formatChangeOutput_base (c : RawChangeEvent) (now : Nat) (db coll : String) :
    (formatChangeOutput c now db coll).operation = c.operationType
    ∧ (formatChangeOutput c now db coll).timestamp = toISOString (c.wallTime.getD now)
    ∧ (formatChangeOutput c now db coll).database = jsOrStr (c.ns.map EventNs.db) db
    ∧ (formatChangeOutput c now db coll).collection = jsOrStr (c.ns.map EventNs.coll) coll
    ∧ (formatChangeOutput c now db coll).documentId = c.documentKey.map jsToString := by
  unfold formatChangeOutput
  split <;> exact ⟨rfl, rfl, rfl, rfl, rfl⟩

/-- Claim C4: `formatChangeOutput` is total by construction, and for an
operation tag outside the six handled cases the `default` branch returns a
well-formed output whose `details` field is the unaltered raw event. -/
theorem normalize_total_spec :
    ∀ (c : RawChangeEvent) (now : Nat) (db coll : String),
    c.operationType ∉ supportedOps →
    (formatChangeOutput c now db coll).details = some c
    ∧ (formatChangeOutput c now db coll).operation = c.operationType := by
  intro c now db coll h
  simp only [supportedOps, List.mem_cons, List.not_mem_nil, or_false, not_or] at h
  obtain ⟨hdel, hdrop, hins, hren, hrep, hupd⟩ := h
  unfold formatChangeOutput
  split
  next heq => exact absurd heq hins
  next heq => exact absurd heq hupd
  next heq => exact absurd heq hrep
  next heq => exact absurd heq hdel
  next heq => exact absurd heq hdrop
  next heq => exact absurd heq hren
  next => exact ⟨rfl, rfl⟩

/-- Witness for C4: an `invalidate` event flows through the default branch
and its raw form is carried in `details`. -/
theorem normalize_total_spec_witness :
    (formatChangeOutput evInvalidate 0 "d" "c").details = some evInvalidate
    ∧ (formatChangeOutput evInvalidate 0 "d" "c").operation = evInvalidate.operationType :=
  normalize_total_spec evInvalidate 0 "d" "c" (by decide)

/-- Claim C5 (amended): the normalized output always carries the operation
tag; the timestamp is the ISO-8601 rendering of the event wall-clock time
when present, else of the current time; database and collection come from
the event namespace when it is present AND the respective name is non-empty
(the JS `||` falls back on the empty string as well as on a missing
namespace); the documentId is the string form of the primary key when the
event carries one and is absent otherwise. -/
theorem normalize_base_spec :
    ∀ (c : RawChangeEvent) (now : Nat) (db coll : String),
    ((formatChangeOutput c now db coll).operation = c.operationType)
    ∧ ((formatChangeOutput c now db coll).timestamp = toISOString (c.wallTime.getD now))
    ∧ (∀ n, c.ns = some n → n.db ≠ "" →
        (formatChangeOutput c now db coll).database = n.db)
    ∧ (∀ n, c.ns = some n → n.db = "" →
        (formatChangeOutput c now db coll).database = db)
    ∧ (c.ns = none → (formatChangeOutput c now db coll).database = db)
    ∧ (∀ n, c.ns = some n → n.coll ≠ "" →
        (formatChangeOutput c now db coll).collection = n.coll)
    ∧ (∀ n, c.ns = some n → n.coll = "" →
        (formatChangeOutput c now db coll).collection = coll)
    ∧ (c.ns = none → (formatChangeOutput c now db coll).collection = coll)
    ∧ ((formatChangeOutput c now db coll).documentId = c.documentKey.map jsToString) := by
  intro c now db coll
  obtain ⟨hop, hts, hdb, hcoll, hid⟩ := formatChangeOutput_base c now db coll
  refine ⟨hop, hts, ?_, ?_, ?_, ?_, ?_, ?_, hid⟩
  · intro n hns hne
    rw [hdb, hns]
    simp [jsOrStr, hne]
  · intro n hns he
    rw [hdb, hns]
    simp [jsOrStr, he]
  · intro hns
    rw [hdb, hns]
    rfl
  · intro n hns hne
    rw [hcoll, hns]
    simp [jsOrStr, hne]
  · intro n hns he
    rw [hcoll, hns]
    simp [jsOrStr, he]
  · intro hns
    rw [hcoll, hns]
    rfl

/-- Witness for C5 at the specification insert scenario: database and
collection come from the event namespace `(d, c)` and the documentId is the
string form of the `_id` value "1". -/
theorem normalize_base_spec_witness :
    (formatChangeOutput evIns 0 "fb" "fc").database = "d"
    ∧ (formatChangeOutput evIns 0 "fb" "fc").collection = "c"
    ∧ (formatChangeOutput evIns 0 "fb" "fc").documentId = some "1" := by
  have h := normalize_base_spec evIns 0 "fb" "fc"
  refine ⟨h.2.2.1 ⟨"d", "c"⟩ rfl (by decide), h.2.2.2.2.2.1 ⟨"d", "c"⟩ rfl (by decide), ?_⟩
  rw [h.2.2.2.2.2.2.2.2]
  rfl

/-- Claim C5 counterexample: an event whose namespace is present but whose
database name is the empty string is given the configured fallback name,
not the (empty) name from its namespace — the JS `||` treats the empty
string as falsy, so "from the event namespace if present" fails. -/
theorem normalize_ns_counterexample :
    evEmptyNsDb.ns = some ⟨"", "c"⟩
    ∧ (formatChangeOutput evEmptyNsDb 0 "fallbackDb" "fallbackColl").database = "fallbackDb"
    ∧ ("fallbackDb" == "") = false :=
  ⟨rfl, rfl, by decide⟩

/-! ### Claims about startup validation -/

/-- Claim C6: evaluation of the startup at the failing input (ping
succeeds, the targeted existence check resolves with zero matches).  The
zero-match NodeApiError is built, but it is thrown inside the same `try`
whose `catch` re-examines it, so the error that propagates is the generic
verification-failure wrapper (which does name the collection), not the
not-found error, and the result is an error: no Subscription is created. -/
theorem notFound_swallowed_eval :
    triggerStartup zeroMatchEnv "mydb" "orders" "*" ["update"]
      = Except.error (TriggerError.verifyFailed (verifyFailedMessage "orders"))
    ∧ (TriggerError.verifyFailed (verifyFailedMessage "orders")).isCollectionNotFound = false
    ∧ jsIncludes (verifyFailedMessage "orders") "orders" = true
    ∧ ((verifyFailedMessage "orders") == (notFoundMessage "orders" "mydb")) = false :=
  ⟨rfl, rfl, by decide, by decide⟩

/-- Claim C9 counterexample: with an empty operation-type set and a benign
environment, startup does not fail at all — it returns a subscription with
an empty pipeline instead of raising a ConfigError (no such error exists in
the code). -/
theorem emptyOps_counterexample :
    triggerStartup benignEnv "d" "c" "*" [] = Except.ok [] :=
  rfl

/-- Claim C9 (amended): an empty operation-type set is not rejected; when
credentials, connect and validation succeed, startup proceeds and builds an
empty pipeline — in particular no operation-type-restricting stage — so the
watch covers every operation type. -/
theorem emptyOps_spec :
    ∀ (env : MongoEnv) (db coll fields : String),
    env.hasCredentials = true → env.connectOk = true →
    validateTarget env db coll = none →
    triggerStartup env db coll fields [] = Except.ok []
    ∧ buildPipeline [] fields = [] := by
  intro env db coll fields h1 h2 h3
  have hbp : buildPipeline [] fields = [] := by
    simp [buildPipeline]
  exact ⟨by simp [triggerStartup, h1, h2, h3, hbp], hbp⟩

/-- Witness for C9: a benign environment and a non-wildcard field list with
no selected operation types still yield a successful start and an empty
pipeline. -/
theorem emptyOps_spec_witness :
    triggerStartup benignEnv "d" "c" "status" [] = Except.ok []
    ∧ buildPipeline [] "status" = [] :=
  emptyOps_spec benignEnv "d" "c" "status" rfl rfl rfl

/-! ### Claims about teardown -/

/-- Claim C7 counterexample: when the Subscription close rejects, the
Connection close is never attempted (there is no try/finally in
`closeFunction`), so "both close operations are attempted even if the
first one fails" is false. -/
theorem close_not_attempted_counterexample :
    (closeFunction ⟨true, false⟩).1 = [CloseAction.closeStream]
    ∧ ((closeFunction ⟨true, false⟩).1.contains CloseAction.closeConn) = false
    ∧ (closeFunction ⟨true, false⟩).2 = some CloseErr.streamErr := by
  decide

/-- Claim C7 (amended): the teardown awaits the Subscription close first
and the Connection close second; if the Subscription close fails, the
error propagates and the Connection close is not attempted; when both
driver closes resolve — as the mongodb driver does, including on handles
that are already closed — an invocation (hence also a repeated one)
produces no error. -/
theorem closeFunction_spec :
    ∀ env : CloseEnv,
    ((closeFunction env).1.head? = some CloseAction.closeStream)
    ∧ (env.streamCloseFails = false →
        (closeFunction env).1 = [CloseAction.closeStream, CloseAction.closeConn])
    ∧ (env.streamCloseFails = true →
        (closeFunction env).1 = [CloseAction.closeStream]
        ∧ (closeFunction env).2 = some CloseErr.streamErr)
    ∧ (env.streamCloseFails = false → env.connCloseFails = false →
        (closeFunction env).2 = none) := by
  intro env
  obtain ⟨s, cn⟩ := env
  cases s <;> cases cn <;> simp [closeFunction]

/-- Witness for C7: with both driver closes succeeding, the teardown runs
both closes in order and raises no error. -/
theorem closeFunction_spec_witness :
    (closeFunction ⟨false, false⟩).1 = [CloseAction.closeStream, CloseAction.closeConn]
    ∧ (closeFunction ⟨false, false⟩).2 = none := by
  have h := closeFunction_spec ⟨false, false⟩
  exact ⟨h.2.1 rfl, h.2.2.2 rfl rfl⟩

end MongoChangeTriggerModel
